import Mathlib

/-!
Verification of the Lodestone AT-URI resolver (`main.go`) against its
natural-language specification.

The Go source is shallowly embedded: every pure helper becomes a Lean
function over `String`/`List`, and the network-effectful parts
(`net/http`, `encoding/json`) are modelled by an explicit environment
`Env` passed to each function.  Every embedded function additionally
returns the list of URLs it requested, so that claims about which
network calls are (or are not) issued become provable statements.
-/

/-- Model of Go `strings.HasPrefix s p` (byte/char-level prefix test). -/
def hasPrefixStr (s p : String) : Bool :=
  p.data.isPrefixOf s.data

/-- Model of Go `strings.HasSuffix s p`. -/
def hasSuffixStr (s p : String) : Bool :=
  p.data.reverse.isPrefixOf s.data.reverse

/-- Model of Go `strings.TrimPrefix s p`: drops `p` from the front when present. -/
def trimPrefixStr (s p : String) : String :=
  if hasPrefixStr s p then String.mk (s.data.drop p.data.length) else s

/-- Model of Go `strings.TrimSuffix s p`: drops `p` from the end when present. -/
def trimSuffixStr (s p : String) : String :=
  if hasSuffixStr s p then String.mk (s.data.take (s.data.length - p.data.length)) else s

/-- Auxiliary splitter: returns the first field and the remaining fields. -/
def splitAux (sep : Char) : List Char → List Char × List (List Char)
  | [] => ([], [])
  | c :: rest =>
    let r := splitAux sep rest
    if c = sep then ([], r.1 :: r.2) else (c :: r.1, r.2)

/-- Model of Go `strings.Split s "/"`: splits on every slash, keeping empty
fields; always returns at least one field (Go never returns an empty slice
for a non-empty separator). -/
def splitSlash (s : String) : List String :=
  let r := splitAux '/' s.data
  (r.1 :: r.2).map String.mk

/-- Model of Go `strings.TrimSpace` (leading and trailing whitespace removed). -/
def trimSpaceStr (s : String) : String :=
  String.mk (((s.data.dropWhile Char.isWhitespace).reverse.dropWhile Char.isWhitespace).reverse)

/-- UTF-8 encoding of a character as byte values, as Go iterates a string. -/
def utf8BytesOfChar (c : Char) : List Nat :=
  let n := c.toNat
  if n < 128 then [n]
  else if n < 2048 then [192 + n / 64, 128 + n % 64]
  else if n < 65536 then [224 + n / 4096, 128 + (n / 64) % 64, 128 + n % 64]
  else [240 + n / 262144, 128 + (n / 4096) % 64, 128 + (n / 64) % 64, 128 + n % 64]

/-- The bytes of a string, as Go's range-over-bytes sees them. -/
def strBytes (s : String) : List Nat :=
  s.data.flatMap utf8BytesOfChar

/-- Model of Go `net/url` shouldEscape in query-component mode: alphanumerics
and `-` `_` `.` `~` are kept, everything else (including all reserved
characters such as the colon) is escaped. -/
def shouldEscapeQuery (b : Nat) : Bool :=
  if (97 ≤ b && b ≤ 122) || (65 ≤ b && b ≤ 90) || (48 ≤ b && b ≤ 57) then false
  else if b = 45 || b = 95 || b = 46 || b = 126 then false
  else true

/-- Uppercase hexadecimal digit, as Go `net/url` uses for percent-escapes. -/
def hexDigit (n : Nat) : Char :=
  "0123456789ABCDEF".data.getD n '0'

/-- Escape a single byte as Go `url.QueryEscape` does: space becomes `+`,
unreserved bytes pass through, everything else becomes `%XX`. -/
def queryEscapeByte (b : Nat) : List Char :=
  if shouldEscapeQuery b = false then [Char.ofNat b]
  else if b = 32 then ['+']
  else ['%', hexDigit (b / 16), hexDigit (b % 16)]

/-- Model of Go `url.QueryEscape`. -/
def queryEscape (s : String) : String :=
  String.mk ((strBytes s).flatMap queryEscapeByte)

/-- Service entry of a DID document (src/main.go lines 233-237). -/
structure Service where
  id : String
  type : String
  serviceEndpoint : String
deriving Repr, DecidableEq

/-- DID document (src/main.go lines 228-231). -/
structure DIDDocument where
  id : String
  service : List Service
deriving Repr, DecidableEq

/-- Outcome of a successful `http.Get`: the status code and the result of
reading the response body (`Except.error` when `io.ReadAll` or the body
stream fails). -/
structure HttpResponse where
  statusCode : Nat
  body : Except String String
deriving Repr

/-- The effect environment: `httpGet` models `net/http.Get` (transport
errors as `Except.error`), `decodeDIDDoc` models `encoding/json` decoding
of a body into a `DIDDocument` (`none` on decode failure).  The embedded
program is a pure function of this environment; repeated calls with the
same environment model repeated executions of the same code. -/
structure Env where
  httpGet : String → Except String HttpResponse
  decodeDIDDoc : String → Option DIDDocument

/-- Boolean success test for `Except` results. -/
def isOkE {ε α : Type} : Except ε α → Bool
  | Except.ok _ => true
  | Except.error _ => false

/-- Embedding of `parseATURI` (src/main.go lines 322-343): requires the
`at://` scheme, then splits the remainder on `/`; field 0 is the
authority, field 1 (when present) the collection, field 2 (when present)
the record key, later fields ignored. -/
def parseATURI (uri : String) : Except String (String × String × String) :=
  if hasPrefixStr uri "at://" = false then
    Except.error "URI must start with at://"
  else
    let parts := splitSlash (trimPrefixStr uri "at://")
    if parts.length < 1 then
      Except.error "missing authority"
    else
      Except.ok (parts.getD 0 "",
        (if parts.length > 1 then parts.getD 1 "" else ""),
        (if parts.length > 2 then parts.getD 2 "" else ""))

/-- Embedding of `resolveHandle` (src/main.go lines 345-356): a single GET of
the well-known URL; only a 200 response with a readable body succeeds, with
the trimmed body as the DID.  The second component records the URL the call
requested. -/
def resolveHandle (env : Env) (handle : String) : Except String String × List String :=
  let u := "https://" ++ handle ++ "/.well-known/atproto-did"
  match env.httpGet u with
  | Except.error _ => (Except.error "could not resolve handle", [u])
  | Except.ok resp =>
    if resp.statusCode = 200 then
      match resp.body with
      | Except.ok b => (Except.ok (trimSpaceStr b), [u])
      | Except.error _ => (Except.error "could not resolve handle", [u])
    else
      (Except.error "could not resolve handle", [u])

/-- Error message `resolveDID` produces for a non-200 status
(src/main.go line 377). -/
def statusErrMsg (code : Nat) : String :=
  "DID resolution failed with status " ++ toString code

/-- The fetch-and-decode tail shared by both DID methods in `resolveDID`
(src/main.go lines 370-385): GET the document URL, fail on transport error,
non-200 status, or decode failure. -/
def resolveDIDFetch (env : Env) (didURL : String) : Except String DIDDocument × List String :=
  match env.httpGet didURL with
  | Except.error e => (Except.error e, [didURL])
  | Except.ok resp =>
    if resp.statusCode ≠ 200 then
      (Except.error (statusErrMsg resp.statusCode), [didURL])
    else
      match resp.body with
      | Except.error e => (Except.error e, [didURL])
      | Except.ok b =>
        match env.decodeDIDDoc b with
        | none => (Except.error "failed to decode DID document", [didURL])
        | some doc => (Except.ok doc, [didURL])

/-- Embedding of `resolveDID` (src/main.go lines 358-386): dispatch on the
DID method prefix to the document URL, or fail without any network call for
an unsupported method. -/
def resolveDID (env : Env) (did : String) : Except String DIDDocument × List String :=
  if hasPrefixStr did "did:plc:" then
    resolveDIDFetch env ("https://plc.directory/" ++ did)
  else if hasPrefixStr did "did:web:" then
    resolveDIDFetch env ("https://" ++ trimPrefixStr did "did:web:" ++ "/.well-known/did.json")
  else
    (Except.error "unsupported DID method", [])

/-- Embedding of the loop body of `extractPDSEndpoint`
(src/main.go lines 389-394). -/
def extractLoop : List Service → String
  | [] => ""
  | s :: rest =>
    if s.type == "AtprotoPersonalDataServer" || hasSuffixStr s.id "#atproto_pds" then
      s.serviceEndpoint
    else
      extractLoop rest

/-- Embedding of `extractPDSEndpoint` (src/main.go lines 388-396). -/
def extractPDSEndpoint (didDoc : DIDDocument) : String :=
  extractLoop didDoc.service

/-- Claim-side predicate: a service entry counts as the PDS entry when its
type is the PDS service type or its id ends with the PDS suffix. -/
def isPDSEntry (s : Service) : Bool :=
  s.type == "AtprotoPersonalDataServer" || hasSuffixStr s.id "#atproto_pds"

/-- Request URL built by `describeRepo` (src/main.go lines 399-401). -/
def describeRepoURL (pdsEndpoint did : String) : String :=
  trimSuffixStr pdsEndpoint "/" ++ "/xrpc/com.atproto.repo.describeRepo?repo="
    ++ queryEscape did

/-- Request URL built by `listRecords` (src/main.go lines 413-416). -/
def listRecordsURL (pdsEndpoint did collection : String) : String :=
  trimSuffixStr pdsEndpoint "/" ++ "/xrpc/com.atproto.repo.listRecords?repo="
    ++ queryEscape did ++ "&collection=" ++ queryEscape collection

/-- Request URL built by `getRecord` (src/main.go lines 428-432). -/
def getRecordURL (pdsEndpoint did collection rkey : String) : String :=
  trimSuffixStr pdsEndpoint "/" ++ "/xrpc/com.atproto.repo.getRecord?repo="
    ++ queryEscape did ++ "&collection=" ++ queryEscape collection
    ++ "&rkey=" ++ queryEscape rkey

/-- Embedding of `describeRepo` (src/main.go lines 398-410): GET the
constructed URL and return exactly what `io.ReadAll` returns on the body;
the status code is not consulted. -/
def describeRepo (env : Env) (pdsEndpoint did : String) : Except String String × List String :=
  match env.httpGet (describeRepoURL pdsEndpoint did) with
  | Except.error e => (Except.error e, [describeRepoURL pdsEndpoint did])
  | Except.ok resp => (resp.body, [describeRepoURL pdsEndpoint did])

/-- Embedding of `listRecords` (src/main.go lines 412-425). -/
def listRecords (env : Env) (pdsEndpoint did collection : String) :
    Except String String × List String :=
  match env.httpGet (listRecordsURL pdsEndpoint did collection) with
  | Except.error e => (Except.error e, [listRecordsURL pdsEndpoint did collection])
  | Except.ok resp => (resp.body, [listRecordsURL pdsEndpoint did collection])

/-- Embedding of `getRecord` (src/main.go lines 427-441). -/
def getRecord (env : Env) (pdsEndpoint did collection rkey : String) :
    Except String String × List String :=
  match env.httpGet (getRecordURL pdsEndpoint did collection rkey) with
  | Except.error e => (Except.error e, [getRecordURL pdsEndpoint did collection rkey])
  | Except.ok resp => (resp.body, [getRecordURL pdsEndpoint did collection rkey])

/-- The handle-resolution step of `resolveATURI` (src/main.go lines 297-302),
wrapping the handle resolver's error. -/
def resolveHandleStep (env : Env) (handle : String) : Except String String × List String :=
  match resolveHandle env handle with
  | (Except.error e, t) => (Except.error ("failed to resolve handle: " ++ e), t)
  | (Except.ok d, t) => (Except.ok d, t)

/-- Embedding of `resolveATURI` (src/main.go lines 290-320): the full
per-URI pipeline — parse, resolve non-DID authorities via the handle
resolver, fetch the DID document, extract the PDS endpoint, then dispatch
on the URI shape to the matching XRPC call. -/
def resolveATURI (env : Env) (atURI : String) : Except String String × List String :=
  match parseATURI atURI with
  | Except.error e => (Except.error ("invalid AT-URI: " ++ e), [])
  | Except.ok (authority, collection, rkey) =>
    match (if hasPrefixStr authority "did:" = false then resolveHandleStep env authority
           else (Except.ok authority, ([] : List String))) with
    | (Except.error e, t) => (Except.error e, t)
    | (Except.ok did, t1) =>
      match resolveDID env did with
      | (Except.error e, t2) => (Except.error ("failed to resolve DID: " ++ e), t1 ++ t2)
      | (Except.ok didDoc, t2) =>
        let pdsEndpoint := extractPDSEndpoint didDoc
        if pdsEndpoint = "" then
          (Except.error "no PDS endpoint found in DID document", t1 ++ t2)
        else if collection = "" then
          let res := describeRepo env pdsEndpoint did
          (res.1, t1 ++ t2 ++ res.2)
        else if rkey = "" then
          let res := listRecords env pdsEndpoint did collection
          (res.1, t1 ++ t2 ++ res.2)
        else
          let res := getRecord env pdsEndpoint did collection rkey
          (res.1, t1 ++ t2 ++ res.2)

/-- The two-byte empty-object sentinel written for a failed URI
(src/main.go line 269). -/
def emptyObject : String := "\x7b\x7d"

/-- Body of the per-URI task in `handleResolve` (src/main.go lines 265-273):
the resolved payload, or the empty-object sentinel on any failure. -/
def resolveOne (env : Env) (uri : String) : String :=
  match (resolveATURI env uri).1 with
  | Except.error _ => emptyObject
  | Except.ok d => d

/-- One task completion: writes task `i`'s outcome to its reserved index of
the result sequence (src/main.go lines 265-273). -/
def applyWrite (env : Env) (uris : List String) (acc : List (Option String)) (i : Nat) :
    List (Option String) :=
  acc.set i (some (resolveOne env (uris.getD i "")))

/-- The batch orchestrator of `handleResolve` (src/main.go lines 260-276):
a result slot per input URI, each task writing its own index, joined before
the result is used.  `order` is the order in which the concurrent tasks
complete; the fold applies their index-disjoint writes in that order. -/
def runBatch (env : Env) (uris : List String) (order : List Nat) : List (Option String) :=
  order.foldl (applyWrite env uris) (List.replicate uris.length none)

/-- Environment in which every network call fails and nothing decodes:
exercises the code paths that never reach the network. -/
def envAny : Env :=
  ⟨fun _ => Except.error "network unreachable", fun _ => none⟩

/-- Concrete DID document used by the successful test environment. -/
def docW : DIDDocument :=
  ⟨"did:plc:xyz", [⟨"svc1", "AtprotoPersonalDataServer", "https://pds.example"⟩]⟩

/-- Test environment: `did:plc:xyz` resolves through `plc.directory` to a
document whose PDS is `https://pds.example`, and the describe-repo call on
that PDS answers; every other request fails at the transport. -/
def envW : Env :=
  ⟨fun u =>
      if u = "https://plc.directory/did:plc:xyz" then
        Except.ok ⟨200, Except.ok "docW-body"⟩
      else if u = describeRepoURL "https://pds.example" "did:plc:xyz" then
        Except.ok ⟨200, Except.ok "repo-descriptor"⟩
      else
        Except.error "network unreachable",
    fun b => if b = "docW-body" then some docW else none⟩

/-- Concrete DID document with no PDS service entry. -/
def docN : DIDDocument :=
  ⟨"did:plc:nopds", [⟨"svc2", "SomeOtherService", "https://x.example"⟩]⟩

/-- Test environment: `did:plc:nopds` resolves to a document without any
PDS service entry. -/
def envN : Env :=
  ⟨fun u =>
      if u = "https://plc.directory/did:plc:nopds" then
        Except.ok ⟨200, Except.ok "docN-body"⟩
      else
        Except.error "network unreachable",
    fun b => if b = "docN-body" then some docN else none⟩

/-- Test environment: every request answers with status 500 and a readable
body. -/
def env500 : Env :=
  ⟨fun _ => Except.ok ⟨500, Except.ok "err-body"⟩, fun _ => none⟩

/-- C4: `parseATURI` fails exactly when the input does not begin with the
`at://` scheme prefix or the authority segment (segment 0 of the remainder)
is absent; for every other input it succeeds. -/
theorem parseATURI_fail_iff (s : String) :
    isOkE (parseATURI s) = false ↔
      (hasPrefixStr s "at://" = false ∨ splitSlash (trimPrefixStr s "at://") = []) := by
  unfold parseATURI
  cases hp : hasPrefixStr s "at://" with
  | false => simp [isOkE]
  | true =>
    cases hsp : splitSlash (trimPrefixStr s "at://") with
    | nil => simp [hsp, isOkE]
    | cons a rest => simp [hsp, isOkE]

/-- C9: for every input beginning with `at://`, `parseATURI` splits the
remainder on `/` and returns segment 0 as the authority, segment 1 (when
present) as the collection, and segment 2 (when present) as the record key,
silently ignoring any fourth or later segment. -/
theorem parseATURI_segments (s a : String) (rest : List String)
    (h : hasPrefixStr s "at://" = true)
    (hp : splitSlash (trimPrefixStr s "at://") = a :: rest) :
    parseATURI s = Except.ok (a, rest.getD 0 "", rest.getD 1 "") := by
  unfold parseATURI
  simp only [h, hp]
  cases rest with
  | nil => simp
  | cons b rest2 =>
    cases rest2 with
    | nil => simp
    | cons c rest3 => simp

/-- C9 witness: a four-segment URI parses to the first three segments, the
fourth being ignored. -/
theorem parseATURI_segments_witness :
    parseATURI "at://w/x/y/z" = Except.ok ("w", "x", "y") :=
  parseATURI_segments "at://w/x/y/z" "w" ["x", "y", "z"] rfl rfl

/-- C5 counterexample: the input `at://a//b` is accepted with record key
`b` (non-empty) while the collection component is the empty string, so a
non-empty record key does not imply a non-empty collection. -/
theorem parseATURI_inv_cex :
    parseATURI "at://a//b" = Except.ok ("a", "", "b") ∧ (("b" : String) == "") = false :=
  ⟨rfl, by decide⟩

/-- C5 (amended): for every string accepted by `parseATURI`, a non-empty
record key implies that a collection segment is present in the URI (the
remainder splits into at least three segments), though that segment may be
the empty string. -/
theorem parseATURI_rkey_segments (s a c r : String)
    (h : parseATURI s = Except.ok (a, c, r)) (hr : r ≠ "") :
    3 ≤ (splitSlash (trimPrefixStr s "at://")).length := by
  unfold parseATURI at h
  split at h
  · exact Except.noConfusion h
  · simp only [] at h
    split at h
    · exact Except.noConfusion h
    · rw [Except.ok.injEq, Prod.mk.injEq, Prod.mk.injEq] at h
      obtain ⟨-, -, hrEq⟩ := h
      by_contra hlt
      apply hr
      rw [← hrEq]
      have hn : ¬ (splitSlash (trimPrefixStr s "at://")).length > 2 := by omega
      simp [hn]

/-- C5 witness: a fully-formed three-segment URI satisfies the amended
invariant. -/
theorem parseATURI_rkey_segments_witness :
    3 ≤ (splitSlash (trimPrefixStr "at://a/b/c" "at://")).length :=
  parseATURI_rkey_segments "at://a/b/c" "a" "b" "c" rfl (by decide)

/-- Every `describeRepo` invocation requests exactly its constructed URL. -/
theorem describeRepo_trace (env : Env) (p d : String) :
    (describeRepo env p d).2 = [describeRepoURL p d] := by
  unfold describeRepo
  cases env.httpGet (describeRepoURL p d) <;> rfl

/-- Every `listRecords` invocation requests exactly its constructed URL. -/
theorem listRecords_trace (env : Env) (p d c : String) :
    (listRecords env p d c).2 = [listRecordsURL p d c] := by
  unfold listRecords
  cases env.httpGet (listRecordsURL p d c) <;> rfl

/-- Every `getRecord` invocation requests exactly its constructed URL. -/
theorem getRecord_trace (env : Env) (p d c r : String) :
    (getRecord env p d c r).2 = [getRecordURL p d c r] := by
  unfold getRecord
  cases env.httpGet (getRecordURL p d c r) <;> rfl

/-- Every `resolveDIDFetch` invocation requests exactly its document URL. -/
theorem resolveDIDFetch_trace (env : Env) (u : String) :
    (resolveDIDFetch env u).2 = [u] := by
  unfold resolveDIDFetch
  cases env.httpGet u with
  | error e => rfl
  | ok resp =>
    simp only []
    split
    · rfl
    · split
      · rfl
      · split <;> rfl

/-- C7 counterexample: on the claim's own inputs, the requested URL carries
the query-escaped DID (`did%3Aplc%3Axyz`), which differs from the URL
literal the claim states (`did:plc:xyz` unescaped). -/
theorem listRecords_url_cex :
    (listRecords envAny "https://pds.example" "did:plc:xyz" "app.bsky.feed.post").2
      = ["https://pds.example/xrpc/com.atproto.repo.listRecords?repo=did%3Aplc%3Axyz&collection=app.bsky.feed.post"]
    ∧ ("https://pds.example/xrpc/com.atproto.repo.listRecords?repo=did%3Aplc%3Axyz&collection=app.bsky.feed.post"
        == "https://pds.example/xrpc/com.atproto.repo.listRecords?repo=did:plc:xyz&collection=app.bsky.feed.post") = false :=
  ⟨rfl, by decide⟩

/-- C7 (amended): with PDS `https://pds.example` (with or without a trailing
slash, which is stripped), DID `did:plc:xyz` and collection
`app.bsky.feed.post`, `listRecords` requests exactly the canonical URL with
query-escaped parameters, in which the DID's colons appear as `%3A`. -/
theorem listRecords_url_amended (env : Env) :
    (listRecords env "https://pds.example" "did:plc:xyz" "app.bsky.feed.post").2
      = ["https://pds.example/xrpc/com.atproto.repo.listRecords?repo=did%3Aplc%3Axyz&collection=app.bsky.feed.post"]
    ∧ (listRecords env "https://pds.example/" "did:plc:xyz" "app.bsky.feed.post").2
      = ["https://pds.example/xrpc/com.atproto.repo.listRecords?repo=did%3Aplc%3Axyz&collection=app.bsky.feed.post"] := by
  rw [listRecords_trace, listRecords_trace]
  exact ⟨by decide, by decide⟩

/-- C1: code-bug evidence — the code has no cache, so every invocation of
the DID resolver and of each XRPC operation issues its network request
anew; in particular a second resolution of the same URI within any TTL
window repeats the DID lookup and the describe-repo/get-record call. -/
theorem everyCallFetches (env : Env) (did pds coll rkey : String) :
    (hasPrefixStr did "did:plc:" = true →
        (resolveDID env did).2 = ["https://plc.directory/" ++ did]) ∧
    (describeRepo env pds did).2 = [describeRepoURL pds did] ∧
    (listRecords env pds did coll).2 = [listRecordsURL pds did coll] ∧
    (getRecord env pds did coll rkey).2 = [getRecordURL pds did coll rkey] := by
  refine ⟨?_, describeRepo_trace env pds did, listRecords_trace env pds did coll,
    getRecord_trace env pds did coll rkey⟩
  intro h
  unfold resolveDID
  simp [h, resolveDIDFetch_trace]

/-- C1 witness: resolving `did:plc:xyz` performs the plc.directory lookup. -/
theorem everyCallFetches_witness :
    (resolveDID envAny "did:plc:xyz").2 = ["https://plc.directory/" ++ "did:plc:xyz"] :=
  (everyCallFetches envAny "did:plc:xyz" "p" "c" "r").1 rfl

/-- A non-200 response makes the DID-document fetch fail with the status
error. -/
theorem resolveDIDFetch_non200 (env : Env) (u : String) (resp : HttpResponse)
    (h1 : env.httpGet u = Except.ok resp) (h2 : resp.statusCode ≠ 200) :
    (resolveDIDFetch env u).1 = Except.error (statusErrMsg resp.statusCode) := by
  unfold resolveDIDFetch
  rw [h1]
  simp [h2]

/-- A decode failure makes the DID-document fetch fail. -/
theorem resolveDIDFetch_decodeFail (env : Env) (u : String) (resp : HttpResponse) (b : String)
    (h1 : env.httpGet u = Except.ok resp) (h2 : resp.statusCode = 200)
    (h3 : resp.body = Except.ok b) (h4 : env.decodeDIDDoc b = none) :
    (resolveDIDFetch env u).1 = Except.error "failed to decode DID document" := by
  unfold resolveDIDFetch
  rw [h1]
  simp [h2, h3, h4]

/-- C6: `resolveDID` dispatches on the DID method prefix: a `did:plc:` DID
is fetched from `https://plc.directory/` followed by the DID, a `did:web:`
DID from the domain's well-known `did.json`, and any other prefix is a
terminal unsupported-method failure issued without any network call; a
non-200 response or a document decode failure is likewise a terminal
failure. -/
theorem resolveDID_dispatch (env : Env) (did : String) :
    (hasPrefixStr did "did:plc:" = false → hasPrefixStr did "did:web:" = false →
        resolveDID env did = (Except.error "unsupported DID method", [])) ∧
    (hasPrefixStr did "did:plc:" = true →
        (resolveDID env did).2 = ["https://plc.directory/" ++ did]) ∧
    (hasPrefixStr did "did:plc:" = false → hasPrefixStr did "did:web:" = true →
        (resolveDID env did).2
          = ["https://" ++ trimPrefixStr did "did:web:" ++ "/.well-known/did.json"]) ∧
    (∀ u resp, (resolveDID env did).2 = [u] → env.httpGet u = Except.ok resp →
        resp.statusCode ≠ 200 →
        (resolveDID env did).1 = Except.error (statusErrMsg resp.statusCode)) ∧
    (∀ u resp b, (resolveDID env did).2 = [u] → env.httpGet u = Except.ok resp →
        resp.statusCode = 200 → resp.body = Except.ok b → env.decodeDIDDoc b = none →
        (resolveDID env did).1 = Except.error "failed to decode DID document") := by
  refine ⟨?_, ?_, ?_, ?_, ?_⟩
  · intro h1 h2
    unfold resolveDID
    simp [h1, h2]
  · intro h1
    unfold resolveDID
    simp [h1, resolveDIDFetch_trace]
  · intro h1 h2
    unfold resolveDID
    simp [h1, h2, resolveDIDFetch_trace]
  · intro u resp htr hget hst
    unfold resolveDID at htr ⊢
    by_cases h1 : hasPrefixStr did "did:plc:" = true
    · simp only [h1, if_true] at htr ⊢
      rw [resolveDIDFetch_trace] at htr
      simp only [List.cons.injEq, and_true] at htr
      rw [← htr] at hget
      exact resolveDIDFetch_non200 env _ resp hget hst
    · simp only [h1, Bool.false_eq_true, if_false] at htr ⊢
      by_cases h2 : hasPrefixStr did "did:web:" = true
      · simp only [h2, if_true] at htr ⊢
        rw [resolveDIDFetch_trace] at htr
        simp only [List.cons.injEq, and_true] at htr
        rw [← htr] at hget
        exact resolveDIDFetch_non200 env _ resp hget hst
      · simp only [h2, Bool.false_eq_true, if_false] at htr
        exact absurd htr (by simp)
  · intro u resp b htr hget hst hb hdec
    unfold resolveDID at htr ⊢
    by_cases h1 : hasPrefixStr did "did:plc:" = true
    · simp only [h1, if_true] at htr ⊢
      rw [resolveDIDFetch_trace] at htr
      simp only [List.cons.injEq, and_true] at htr
      rw [← htr] at hget
      exact resolveDIDFetch_decodeFail env _ resp b hget hst hb hdec
    · simp only [h1, Bool.false_eq_true, if_false] at htr ⊢
      by_cases h2 : hasPrefixStr did "did:web:" = true
      · simp only [h2, if_true] at htr ⊢
        rw [resolveDIDFetch_trace] at htr
        simp only [List.cons.injEq, and_true] at htr
        rw [← htr] at hget
        exact resolveDIDFetch_decodeFail env _ resp b hget hst hb hdec
      · simp only [h2, Bool.false_eq_true, if_false] at htr
        exact absurd htr (by simp)

/-- C6 witness: a `did:key:` DID fails as unsupported, with no network
request issued. -/
theorem resolveDID_dispatch_witness :
    resolveDID envAny "did:key:zzz" = (Except.error "unsupported DID method", []) :=
  (resolveDID_dispatch envAny "did:key:zzz").1 rfl rfl

/-- The scan loop of the endpoint extractor returns the endpoint of the
first matching service entry, or the empty string when none matches. -/
theorem extractLoop_find (l : List Service) :
    extractLoop l = ((l.find? isPDSEntry).map Service.serviceEndpoint).getD "" := by
  induction l with
  | nil => rfl
  | cons s rest ih =>
    by_cases h : isPDSEntry s = true
    · have h2 := h
      unfold isPDSEntry at h2
      rw [List.find?_cons_of_pos _ h]
      simp [extractLoop, h2]
    · have hf : isPDSEntry s = false := by revert h; cases isPDSEntry s <;> simp
      have h2 := hf
      unfold isPDSEntry at h2
      rw [List.find?_cons_of_neg _ (by simp [hf])]
      simp [extractLoop, h2, ih]

/-- C8: `extractPDSEndpoint` is a pure function returning the service
endpoint of the first entry whose type is `AtprotoPersonalDataServer` or
whose id ends with `#atproto_pds`, and the empty string when no entry
matches; the pipeline treats that empty result as the terminal no-PDS
failure for the URI. -/
theorem extractPDS_first_match (env : Env) (doc : DIDDocument) (uri a c r : String) :
    (extractPDSEndpoint doc
        = ((doc.service.find? isPDSEntry).map Service.serviceEndpoint).getD "") ∧
    (parseATURI uri = Except.ok (a, c, r) → hasPrefixStr a "did:" = true →
      (resolveDID env a).1 = Except.ok doc → extractPDSEndpoint doc = "" →
      (resolveATURI env uri).1 = Except.error "no PDS endpoint found in DID document") := by
  constructor
  · exact extractLoop_find doc.service
  · intro hparse hdid hres hext
    unfold resolveATURI
    rw [hparse]
    simp only [hdid, Bool.true_eq_false, if_false]
    rcases hr : resolveDID env a with ⟨r1, t2⟩
    rw [hr] at hres
    simp only [] at hres
    subst hres
    simp [hext]

/-- C8 witness: a document whose only service entry matches neither
criterion makes the pipeline fail with the no-PDS error. -/
theorem extractPDS_first_match_witness :
    (resolveATURI envN "at://did:plc:nopds").1
      = Except.error "no PDS endpoint found in DID document" :=
  (extractPDS_first_match envN docN "at://did:plc:nopds" "did:plc:nopds" "" "").2
    rfl rfl rfl rfl

/-- C10: each XRPC operation fails exactly when the transport call fails or
reading the body fails; the status code is never inspected, so any response
with a readable body — whatever its status — is returned as the successful
payload. -/
theorem xrpcCalls_status_blind (env : Env) (pds did coll rkey : String) :
    (∀ resp b, env.httpGet (describeRepoURL pds did) = Except.ok resp →
        resp.body = Except.ok b →
        describeRepo env pds did = (Except.ok b, [describeRepoURL pds did])) ∧
    (isOkE (describeRepo env pds did).1 = false ↔
        ((∃ e, env.httpGet (describeRepoURL pds did) = Except.error e) ∨
         (∃ resp e, env.httpGet (describeRepoURL pds did) = Except.ok resp ∧
            resp.body = Except.error e))) ∧
    (∀ resp b, env.httpGet (listRecordsURL pds did coll) = Except.ok resp →
        resp.body = Except.ok b →
        listRecords env pds did coll = (Except.ok b, [listRecordsURL pds did coll])) ∧
    (isOkE (listRecords env pds did coll).1 = false ↔
        ((∃ e, env.httpGet (listRecordsURL pds did coll) = Except.error e) ∨
         (∃ resp e, env.httpGet (listRecordsURL pds did coll) = Except.ok resp ∧
            resp.body = Except.error e))) ∧
    (∀ resp b, env.httpGet (getRecordURL pds did coll rkey) = Except.ok resp →
        resp.body = Except.ok b →
        getRecord env pds did coll rkey
          = (Except.ok b, [getRecordURL pds did coll rkey])) ∧
    (isOkE (getRecord env pds did coll rkey).1 = false ↔
        ((∃ e, env.httpGet (getRecordURL pds did coll rkey) = Except.error e) ∨
         (∃ resp e, env.httpGet (getRecordURL pds did coll rkey) = Except.ok resp ∧
            resp.body = Except.error e))) := by
  refine ⟨?_, ?_, ?_, ?_, ?_, ?_⟩
  · intro resp b h1 h2
    unfold describeRepo
    rw [h1]
    simp [h2]
  · unfold describeRepo
    cases h : env.httpGet (describeRepoURL pds did) with
    | error e => simp [h, isOkE]
    | ok resp =>
      cases hb : resp.body with
      | error e => simp [h, hb, isOkE]
      | ok b => simp [h, hb, isOkE]
  · intro resp b h1 h2
    unfold listRecords
    rw [h1]
    simp [h2]
  · unfold listRecords
    cases h : env.httpGet (listRecordsURL pds did coll) with
    | error e => simp [h, isOkE]
    | ok resp =>
      cases hb : resp.body with
      | error e => simp [h, hb, isOkE]
      | ok b => simp [h, hb, isOkE]
  · intro resp b h1 h2
    unfold getRecord
    rw [h1]
    simp [h2]
  · unfold getRecord
    cases h : env.httpGet (getRecordURL pds did coll rkey) with
    | error e => simp [h, isOkE]
    | ok resp =>
      cases hb : resp.body with
      | error e => simp [h, hb, isOkE]
      | ok b => simp [h, hb, isOkE]

/-- C10 witness: a status-500 response with a readable body is returned as
the successful payload of `describeRepo`. -/
theorem xrpcCalls_status_blind_witness :
    describeRepo env500 "https://p" "d"
      = (Except.ok "err-body", [describeRepoURL "https://p" "d"]) :=
  (xrpcCalls_status_blind env500 "https://p" "d" "c" "r").1
    ⟨500, Except.ok "err-body"⟩ "err-body" rfl rfl

/-- Applying the index-disjoint task writes in any completion order never
changes the length of the result sequence. -/
theorem runWrites_length (env : Env) (uris : List String) :
    ∀ (order : List Nat) (acc : List (Option String)),
      (order.foldl (applyWrite env uris) acc).length = acc.length := by
  intro order
  induction order with
  | nil => intro acc; rfl
  | cons j rest ih =>
    intro acc
    rw [List.foldl_cons, ih]
    simp [applyWrite]

/-- Once a slot holds its task's outcome, later task writes (all of which
write their own outcome to their own index) leave it intact. -/
theorem runWrites_preserve (env : Env) (uris : List String) :
    ∀ (order : List Nat) (acc : List (Option String)) (i : Nat),
      acc.getD i none = some (resolveOne env (uris.getD i "")) →
      (order.foldl (applyWrite env uris) acc).getD i none
        = some (resolveOne env (uris.getD i "")) := by
  intro order
  induction order with
  | nil => intro acc i h; exact h
  | cons j rest ih =>
    intro acc i h
    rw [List.foldl_cons]
    apply ih
    by_cases hij : j = i
    · subst hij
      by_cases hlen : j < acc.length
      · unfold applyWrite
        rw [List.getD_eq_getElem?_getD, List.getElem?_set_self hlen]
        rfl
      · unfold applyWrite
        rw [List.set_eq_of_length_le (Nat.le_of_not_lt hlen)]
        exact h
    · unfold applyWrite
      rw [List.getD_eq_getElem?_getD, List.getElem?_set_ne hij,
        ← List.getD_eq_getElem?_getD]
      exact h

/-- A slot whose task completed (its index occurs in the completion order)
holds that task's outcome after all writes are applied. -/
theorem runWrites_get (env : Env) (uris : List String) :
    ∀ (order : List Nat) (acc : List (Option String)) (i : Nat),
      i < acc.length → i ∈ order →
      (order.foldl (applyWrite env uris) acc).getD i none
        = some (resolveOne env (uris.getD i "")) := by
  intro order
  induction order with
  | nil => intro acc i _ hmem; cases hmem
  | cons j rest ih =>
    intro acc i hlen hmem
    rw [List.foldl_cons]
    by_cases hij : i = j
    · subst hij
      apply runWrites_preserve
      unfold applyWrite
      rw [List.getD_eq_getElem?_getD, List.getElem?_set_self hlen]
      rfl
    · have hmem2 : i ∈ rest := by
        rcases List.mem_cons.mp hmem with h | h
        · exact absurd h hij
        · exact h
      apply ih
      · simpa [applyWrite] using hlen
      · exact hmem2

/-- C2: for every batch of input URIs, once every task has completed (every
index occurs in the completion order), the emitted result sequence has
exactly one entry per input and the entry at index `i` is the resolution
outcome of input `i`, whatever the completion order was. -/
theorem runBatch_ordered (env : Env) (uris : List String) (order : List Nat)
    (hcov : ∀ j, j < uris.length → j ∈ order) :
    (runBatch env uris order).length = uris.length ∧
    ∀ i, i < uris.length →
      (runBatch env uris order).getD i none
        = some (resolveOne env (uris.getD i "")) := by
  constructor
  · unfold runBatch
    rw [runWrites_length]
    exact List.length_replicate ..
  · intro i hi
    unfold runBatch
    apply runWrites_get
    · simpa using hi
    · exact hcov i hi

/-- C2 witness: a two-URI batch whose tasks complete in reverse order still
yields the outcomes at their input positions. -/
theorem runBatch_ordered_witness :
    (runBatch envW ["at://did:plc:xyz", "at://bad.example"] [1, 0]).length = 2 ∧
    (runBatch envW ["at://did:plc:xyz", "at://bad.example"] [1, 0]).getD 0 none
      = some (resolveOne envW "at://did:plc:xyz") := by
  have h := runBatch_ordered envW ["at://did:plc:xyz", "at://bad.example"] [1, 0]
    (by decide)
  exact ⟨h.1, h.2 0 (by decide)⟩

/-- A task that fails at any stage writes the two-byte empty-object
sentinel. -/
theorem resolveOne_of_fail (env : Env) (u : String)
    (h : isOkE (resolveATURI env u).1 = false) :
    resolveOne env u = emptyObject := by
  unfold resolveOne
  cases hr : (resolveATURI env u).1 with
  | error e => rfl
  | ok d => rw [hr] at h; exact absurd h (by simp [isOkE])

/-- C3: if the task for input `k` fails at any pipeline stage, the result at
index `k` is the two-byte empty-object sentinel, and every other completed
task's result is its own input's resolution outcome, unaffected by the
failure. -/
theorem runBatch_failure_isolation (env : Env) (uris : List String) (order : List Nat)
    (k : Nat) (hcov : ∀ j, j < uris.length → j ∈ order) (hk : k < uris.length)
    (hfail : isOkE (resolveATURI env (uris.getD k "")).1 = false) :
    (runBatch env uris order).getD k none = some emptyObject ∧
    emptyObject.utf8ByteSize = 2 ∧
    ∀ i, i < uris.length → i ≠ k →
      (runBatch env uris order).getD i none
        = some (resolveOne env (uris.getD i "")) := by
  refine ⟨?_, rfl, ?_⟩
  · have h : (runBatch env uris order).getD k none
        = some (resolveOne env (uris.getD k "")) := by
      unfold runBatch
      apply runWrites_get
      · simpa using hk
      · exact hcov k hk
    rw [h, resolveOne_of_fail env _ hfail]
  · intro i hi _
    unfold runBatch
    apply runWrites_get
    · simpa using hi
    · exact hcov i hi

/-- C3 witness: in a two-URI batch where the second URI's handle cannot be
resolved, slot 1 is the sentinel and slot 0 the resolved payload. -/
theorem runBatch_failure_isolation_witness :
    (runBatch envW ["at://did:plc:xyz", "at://bad.example"] [0, 1]).getD 1 none
      = some emptyObject ∧
    emptyObject.utf8ByteSize = 2 ∧
    (runBatch envW ["at://did:plc:xyz", "at://bad.example"] [0, 1]).getD 0 none
      = some (resolveOne envW "at://did:plc:xyz") := by
  have h := runBatch_failure_isolation envW ["at://did:plc:xyz", "at://bad.example"]
    [0, 1] 1 (by decide) (by decide) (by decide)
  exact ⟨h.1, h.2.1, h.2.2 0 (by decide) (by decide)⟩
